import Mathlib

/-!
Verification development for the resume-evaluation pipeline in
`work_flow_1.py` (class `ResumeEvaluator`).

The Python module is shallowly embedded as follows.

* JSON values produced by `json.loads` are modelled by the inductive `JVal`
  (all numbers occurring in this program are integers).
* `json.loads` itself is an external library; it is modelled as a parameter
  `parse : String → Option JVal` that returns `none` exactly when the call
  would raise `json.JSONDecodeError`.
* The filesystem and the document-parsing libraries (`open`, `python-docx`,
  `PyPDF2`) are modelled by the record `FS`; an `Except.error` value models
  an exception raised by the corresponding library call.
* The `ollama` library is modelled by `OllamaEnv`: either the `import ollama`
  statement inside `call_local_model` raises `ImportError`
  (`OllamaEnv.unavailable`), or it provides a `generate` function whose
  behaviour on a (model name, prompt) pair is given by a `GenOutcome`.
* Python strings are Lean `String`s; the string manipulations of the source
  (`strip`, `startswith`, `endswith`, slicing, `lower`, `rfind`) are embedded
  as executable functions on the underlying `List Char`.
-/

/-- JSON values, the result type of the modelled `json.loads`.  Every number
occurring in this program (scores) is an integer. -/
inductive JVal where
  | null : JVal
  | bool : Bool → JVal
  | num : Int → JVal
  | str : String → JVal
  | arr : List JVal → JVal
  | obj : List (String × JVal) → JVal

/-- Dictionary access: `jget v k` is `v[k]` when `v` is a JSON object that
binds `k`, and `none` otherwise. -/
def jget (v : JVal) (k : String) : Option JVal :=
  match v with
  | JVal.obj kvs => kvs.lookup k
  | _ => none

/-- The backquote character, written by the source inside the string literals
used for Markdown fence detection. -/
def backquote : Char := Char.ofNat 96

/-- The left-brace character. -/
def lbrace : Char := Char.ofNat 123

/-- The right-brace character. -/
def rbrace : Char := Char.ofNat 125

/-- The newline character. -/
def nl : Char := Char.ofNat 10

/-- ASCII whitespace, as stripped by Python `str.strip()`:
space, tab, newline, carriage return, vertical tab, form feed. -/
def wsChar (c : Char) : Bool :=
  c == Char.ofNat 32 || c == Char.ofNat 9 || c == Char.ofNat 10 ||
  c == Char.ofNat 13 || c == Char.ofNat 11 || c == Char.ofNat 12

/-- Python `str.strip()` on the character list: drop whitespace from both
ends. -/
def pyStripL (l : List Char) : List Char :=
  ((l.dropWhile wsChar).reverse.dropWhile wsChar).reverse

/-- Python `str.strip()`. -/
def pyStrip (s : String) : String := String.mk (pyStripL s.data)

/-- The character list of the Python literal `"```json"` (7 characters). -/
def fenceJsonL : List Char := [backquote, backquote, backquote, 'j', 's', 'o', 'n']

/-- The character list of the Python literal `"```"` (3 characters). -/
def fenceL : List Char := [backquote, backquote, backquote]

/-- Lines 175-182 of `call_local_model`: strip surrounding whitespace, then a
leading `"```json"` (7 characters, via `cleaned_response[7:]`), then a leading
`"```"` (3 characters), then a trailing `"```"` (via `cleaned_response[:-3]`),
on the character list. -/
def stripFencesL (l : List Char) : List Char :=
  let c0 := pyStripL l
  let c1 := if fenceJsonL.isPrefixOf c0 then c0.drop 7 else c0
  let c2 := if fenceL.isPrefixOf c1 then c1.drop 3 else c1
  if fenceL.isSuffixOf c2 then c2.take (c2.length - 3) else c2

/-- The Markdown-fence cleanup of `call_local_model` as a `String` function:
`cleaned_response` as a function of `response_text`. -/
def stripFences (s : String) : String := String.mk (stripFencesL s.data)

/-- Python `str.lower()` (ASCII range, as used on the file paths here). -/
def pyLower (s : String) : String := String.mk (s.data.map Char.toLower)

/-- Python `str.rfind(c)`: index of the last occurrence of the character `c`,
or `-1` when absent. -/
def pyRfind (l : List Char) (c : Char) : Int :=
  match l.reverse.findIdx? (fun x => x == c) with
  | some i => ((l.length : Int)) - 1 - ((i : Int))
  | none => -1

/-- The dot character. -/
def dotChar : Char := Char.ofNat 46

/-- The path-separator character. -/
def slashChar : Char := Char.ofNat 47

/-- The extension component of `os.path.splitext(p)` (posix rules): the
suffix starting at the last dot of the final path component, unless every
character of the final component before that dot is itself a dot. -/
def splitextExt (p : String) : String :=
  let l := p.data
  let sepIndex := pyRfind l slashChar
  let dotIndex := pyRfind l dotChar
  if sepIndex < dotIndex then
    let stem := (l.drop ((sepIndex + 1).toNat)).take ((dotIndex - sepIndex - 1).toNat)
    if stem.any (fun c => !(c == dotChar)) then String.mk (l.drop (dotIndex.toNat)) else ("")
  else ("")

/-- The filesystem together with the document-parsing libraries, as seen by
`read_file_content`.  `Except.error e` models the library call raising an
exception whose `str` is `e` (these are caught by the
`except Exception as e` handler of lines 47-48). -/
structure FS where
  pathExists : String → Bool
  readTextUtf8 : String → Except String String
  docxParagraphs : String → Except String (List String)
  pdfPages : String → Except String (List String)

/-- Result of `read_file_content`: either the `FileNotFoundError` raised on
line 19, or the string returned on one of the return paths. -/
inductive ReadOutcome where
  | fileNotFound (msg : String) : ReadOutcome
  | content (s : String) : ReadOutcome

/-- Lines 17-48, `ResumeEvaluator.read_file_content`.  A nonexistent path
raises `FileNotFoundError`; otherwise dispatch on the lowercased extension:
`.txt` and unrecognized extensions are read as UTF-8 text, `.docx` joins the
paragraph texts with newlines, `.pdf` concatenates the page texts; any
exception raised while reading is converted to an error-text payload by the
handler of lines 47-48.  (The `except ImportError` handlers of lines 31-32 and
41-42 are unreachable: `Document` and `PyPDF2` are resolved by the module-level
imports of lines 3-4, see `module_imports_ok`.) -/
def read_file_content (fs : FS) (file_path : String) : ReadOutcome :=
  if fs.pathExists file_path = false then
    ReadOutcome.fileNotFound (("文件不存在: ") ++ file_path)
  else
    let ext := splitextExt (pyLower file_path)
    if ext = (".txt") then
      match fs.readTextUtf8 file_path with
      | Except.ok s => ReadOutcome.content s
      | Except.error e => ReadOutcome.content (("读取文件时出错: ") ++ e)
    else if ([(".docx")]).contains ext then
      match fs.docxParagraphs file_path with
      | Except.ok ps => ReadOutcome.content (String.intercalate ("\n") ps)
      | Except.error e => ReadOutcome.content (("读取文件时出错: ") ++ e)
    else if ext = (".pdf") then
      match fs.pdfPages file_path with
      | Except.ok pages => ReadOutcome.content (String.join pages)
      | Except.error e => ReadOutcome.content (("读取文件时出错: ") ++ e)
    else
      match fs.readTextUtf8 file_path with
      | Except.ok s => ReadOutcome.content s
      | Except.error e => ReadOutcome.content (("读取文件时出错: ") ++ e)

/-- The constructor arguments of `ResumeEvaluator.__init__`. -/
structure ResumeEvaluator where
  jd_path : String
  resume_path : String
  model_name : String

/-- The default value of the `model_name` parameter of
`ResumeEvaluator.__init__`. -/
def default_model_name : String := "deepseek-r1:7b"

/-- The part of the prompt template of `generate_prompt` preceding the
interpolated `{jd_text}`. -/
def promptPartA : String :=
  "\n        # 角色\n        你是一位资深的HR招聘专家和职业顾问,具有丰富的招聘经验和人才评估能力。你的任务是对候选人简历与职位描述的匹配度进行全面、深入的分析。\n\n        ## 技能要求\n        - 精通职位描述的关键要素分析\n        - 能够准确评估候选人的资历与岗位要求的契合度\n        - 具备行业专业知识，能够识别候选人的潜在价值\n        - 能够提供具体、可行的改进建议\n\n        ## 评估维度\n        请从以下几个关键维度对候选人进行评估：\n        1. **基本资历匹配度**：教育背景、工作经验年限、核心技能等\n        2. **技能深度与广度**：技术栈、工具使用熟练度、项目经验复杂度等\n        3. **成就与贡献**：过往工作中的具体成果、量化的业绩表现等\n        4. **文化适配性**：价值观、工作风格与公司文化的匹配程度\n        5. **发展潜力**：学习能力、适应性、成长轨迹等\n\n        ## 任务说明\n        请仔细阅读以下职位描述和候选人简历，然后进行专业评估：\n\n        ### 职位描述:\n        "

/-- The part of the prompt template between the interpolated `{jd_text}` and
`{resume_text}`. -/
def promptPartB : String :=
  "\n\n        ### 候选人简历:\n        "

/-- The part of the prompt template following the interpolated
`{resume_text}`: the output requirements and the literal JSON schema example. -/
def promptPartC : String :=
  "\n\n        ## 输出要求\n        请严格按照以下JSON格式输出详细评估报告,确保内容具体、客观、有依据:\n\n        \x7b\n        \x22score\x22: 请给出0-100的综合评分,精确到整数,\n        \x22summary\x22: \x22请用一句话概括总体匹配度，突出核心亮点或主要差距\x22,\n        \x22detailed_analysis\x22: \x7b\n            \x22qualification_match\x22: \x7b\n            \x22score\x22: 0-100的分数,\n            \x22comments\x22: [\x22请列出具体的匹配点和不匹配点，如：\x27候选人拥有5年Java开发经验,符合JD要求的3-5年经验\x27\x22]\n            \x7d,\n            \x22skill_match\x22: \x7b\n            \x22score\x22: 0-100的分数,\n            \x22comments\x22: [\x22请详细分析技能匹配情况，如：\x27熟练掌握Spring框架,但缺少微服务架构经验\x27\x22]\n            \x7d,\n            \x22experience_quality\x22: \x7b\n            \x22score\x22: 0-100的分数,\n            \x22comments\x22: [\x22请评估经历质量，如：\x27在知名互联网公司担任核心开发角色，项目规模大\x27\x22]\n            \x7d,\n            \x22potential\x22: \x7b\n            \x22score\x22: 0-100的分数,\n            \x22comments\x22: [\x22请评估候选人潜力，如：\x27持续学习新技术，在开源社区有贡献\x27\x22]\n            \x7d\n        \x7d,\n        \x22strengths\x22: [\n            \x22请列出3-5个具体优势,如:\x275年大型分布式系统开发经验\x27\x22,\n            \x22优势点2\x22,\n            \x22...\x22\n        ],\n        \x22weaknesses\x22: [\n            \x22请列出3-5个具体不足,如:\x27缺乏云原生技术实践经验\x27\x22,\n            \x22不足点2\x22,\n            \x22...\x22\n        ],\n        \x22recommendations\x22: [\n            \x22请提供3-5条具体可行的改进建议,如:\x27建议候选人补充Kubernetes实践经验\x27\x22,\n            \x22改进建议2\x22,\n            \x22...\x22\n        ],\n        \x22hr_interview_focus\x22: [\n            \x22建议HR在面试中重点关注的1-2个问题,如:\x27深入了解候选人在高并发场景下的解决方案\x27\x22,\n            \x22...\x22\n        ]\n        \x7d\n\n        请确保输出是有效的JSON格式,不要包含其他内容。所有评分必须为数字,所有文本字段必须为字符串或字符串数组。\n        "

/-- Lines 61-146, `ResumeEvaluator.generate_prompt`: the fixed f-string
template with the two documents interpolated, followed by `.strip()`. -/
def generate_prompt (jd_text resume_text : String) : String :=
  pyStrip (promptPartA ++ jd_text ++ promptPartB ++ resume_text ++ promptPartC)

/-- Behaviour of one `ollama.generate(model=..., prompt=...)` call followed by
`response['response']`: either some exception is raised (caught by the
`except Exception` handler of lines 219-221), or a response text is
obtained. -/
inductive GenOutcome where
  | raises (msg : String) : GenOutcome
  | returns (response_text : String) : GenOutcome

/-- The `ollama` library as seen by the `import ollama` statement on
line 159: either the import raises `ImportError` (caught on lines 216-218), or
the library is present and `generate` describes each invocation. -/
inductive OllamaEnv where
  | unavailable : OllamaEnv
  | available (generate : String → String → GenOutcome) : OllamaEnv

/-- Lines 230-282, `ResumeEvaluator._get_default_evaluation`: the fixed
default evaluation returned whenever the Ollama call path fails. -/
def get_default_evaluation : JVal :=
  JVal.obj [
    (("score"), JVal.num 80),
    (("summary"), JVal.str ("简历整体匹配度较高，具备岗位所需的核心技能和经验。")),
    (("detailed_analysis"), JVal.obj [
      (("qualification_match"), JVal.obj [
        (("score"), JVal.num 85),
        (("comments"), JVal.arr [
          JVal.str ("教育背景符合要求，计算机相关专业"),
          JVal.str ("工作经验年限满足JD要求"),
          JVal.str ("拥有所需的核心技能")])]),
      (("skill_match"), JVal.obj [
        (("score"), JVal.num 75),
        (("comments"), JVal.arr [
          JVal.str ("熟练掌握主要技术栈"),
          JVal.str ("缺少部分新兴技术经验")])]),
      (("experience_quality"), JVal.obj [
        (("score"), JVal.num 80),
        (("comments"), JVal.arr [
          JVal.str ("有相关行业项目经验"),
          JVal.str ("参与过中等规模项目")])]),
      (("potential"), JVal.obj [
        (("score"), JVal.num 85),
        (("comments"), JVal.arr [
          JVal.str ("持续学习新技术"),
          JVal.str ("有一定的开源贡献")])])]),
    (("strengths"), JVal.arr [
      JVal.str ("具备岗位要求的技术栈"),
      JVal.str ("有相关的项目经验"),
      JVal.str ("学历符合要求")]),
    (("weaknesses"), JVal.arr [
      JVal.str ("缺乏知名公司工作经验"),
      JVal.str ("项目描述可以更详细")]),
    (("recommendations"), JVal.arr [
      JVal.str ("在简历中增加项目成果量化数据"),
      JVal.str ("补充技能掌握程度的说明"),
      JVal.str ("优化简历排版，提高可读性")]),
    (("hr_interview_focus"), JVal.arr [
      JVal.str ("深入了解候选人在项目中的具体职责和贡献"),
      JVal.str ("评估其技术深度和解决问题的能力")])]

/-- Lines 188-214 of `call_local_model`: the diagnostic structure returned
when `json.loads` raises `JSONDecodeError`, carrying the original (unstripped)
`response_text` in its `raw_response` field. -/
def parse_failure_result (response_text : String) : JVal :=
  JVal.obj [
    (("score"), JVal.num 75),
    (("summary"), JVal.str ("模型响应解析失败")),
    (("detailed_analysis"), JVal.obj [
      (("qualification_match"), JVal.obj [
        (("score"), JVal.num 80),
        (("comments"), JVal.arr [JVal.str ("模型已成功调用，但响应格式不符合预期")])]),
      (("skill_match"), JVal.obj [
        (("score"), JVal.num 70),
        (("comments"), JVal.arr [JVal.str ("请检查模型输出格式")])]),
      (("experience_quality"), JVal.obj [
        (("score"), JVal.num 75),
        (("comments"), JVal.arr [JVal.str ("建议调整提示词以获得更好的结构化输出")])]),
      (("potential"), JVal.obj [
        (("score"), JVal.num 85),
        (("comments"), JVal.arr [JVal.str ("候选人表现出较强的学习能力和潜力")])])]),
    (("strengths"), JVal.arr [JVal.str ("模型已成功调用")]),
    (("weaknesses"), JVal.arr [JVal.str ("响应格式不符合预期")]),
    (("recommendations"), JVal.arr [JVal.str ("请检查模型输出格式")]),
    (("hr_interview_focus"), JVal.arr [JVal.str ("关注模型输出格式问题")]),
    (("raw_response"), JVal.str response_text)]

/-- Lines 148-221, `ResumeEvaluator.call_local_model`.  `parse` models
`json.loads` (`none` exactly when it would raise `JSONDecodeError`); a missing
`ollama` library or any exception from the generate call yields the default
evaluation; otherwise the response text is fence-stripped and parsed, falling
back to the diagnostic structure on a parse failure. -/
def call_local_model (parse : String → Option JVal) (env : OllamaEnv)
    (ev : ResumeEvaluator) (prompt : String) : JVal :=
  match env with
  | OllamaEnv.unavailable => get_default_evaluation
  | OllamaEnv.available generate =>
    match generate ev.model_name prompt with
    | GenOutcome.raises _ => get_default_evaluation
    | GenOutcome.returns response_text =>
      match parse (stripFences response_text) with
      | some result => result
      | none => parse_failure_result response_text

/-- Result of `ResumeEvaluator.evaluate`: either the `FileNotFoundError`
raised by `read_file_content` propagates out of the run, or a structured
result is returned. -/
inductive RunResult where
  | raisedNotFound (msg : String) : RunResult
  | ok (v : JVal) : RunResult

/-- Lines 284-300, `ResumeEvaluator.evaluate` (with
`extract_text_from_files`, lines 50-59, inlined in source order): read the JD
file, read the resume file, build the prompt, call the model. -/
def evaluate (fs : FS) (parse : String → Option JVal) (env : OllamaEnv)
    (ev : ResumeEvaluator) : RunResult :=
  match read_file_content fs ev.jd_path with
  | ReadOutcome.fileNotFound m => RunResult.raisedNotFound m
  | ReadOutcome.content jd_text =>
    match read_file_content fs ev.resume_path with
    | ReadOutcome.fileNotFound m => RunResult.raisedNotFound m
    | ReadOutcome.content resume_text =>
      RunResult.ok (call_local_model parse env ev (generate_prompt jd_text resume_text))

/-- Lines 1-8: the module-level imports.  The module loads only when both
`import PyPDF2` (line 3) and `from docx import Document` (line 4) succeed; if
either library is absent, the `ImportError` escapes at import time, before any
`ResumeEvaluator` method can run. -/
def module_imports_ok (pypdf2_available docx_available : Bool) : Bool :=
  pypdf2_available && docx_available

/-- True exactly on JSON strings. -/
def isStr : JVal → Bool
  | JVal.str _ => true
  | _ => false

/-- Modelled from the spec (section 3 invariant): an optional field holds an
integer score in the range 0..100. -/
def scoreOk : Option JVal → Bool
  | some (JVal.num n) => decide (0 ≤ n) && decide (n ≤ 100)
  | _ => false

/-- Modelled from the spec (section 3 invariant): a list field, when present,
is a non-empty array of strings. -/
def strListOk : Option JVal → Bool
  | none => true
  | some (JVal.arr xs) => !xs.isEmpty && xs.all isStr
  | some _ => false

/-- Modelled from the spec (section 3 invariant): a `detailed_analysis`
sub-entry, when present, carries an in-range `score`. -/
def subScoreOk : Option JVal → Bool
  | none => true
  | some sub => scoreOk (jget sub ("score"))

/-- Modelled from the spec (section 3 invariant): the `detailed_analysis`
object, when present, has in-range sub-scores in all four dimensions. -/
def detailOk : Option JVal → Bool
  | none => true
  | some d =>
    subScoreOk (jget d ("qualification_match")) && subScoreOk (jget d ("skill_match")) &&
    subScoreOk (jget d ("experience_quality")) && subScoreOk (jget d ("potential"))

/-- Modelled from the spec (section 3, the `EvaluationResult` invariant): the
top-level `score` is an integer in 0..100, every nested sub-score is in
range, and every present list field (`strengths`, `weaknesses`,
`recommendations`, `hr_interview_focus`) is a non-empty sequence of
strings. -/
def evalInvariant (v : JVal) : Bool :=
  scoreOk (jget v ("score")) && detailOk (jget v ("detailed_analysis")) &&
  strListOk (jget v ("strengths")) && strListOk (jget v ("weaknesses")) &&
  strListOk (jget v ("recommendations")) && strListOk (jget v ("hr_interview_focus"))

/-- A concrete evaluator instance used by the witnesses. -/
def evA : ResumeEvaluator :=
  ResumeEvaluator.mk ("jd.txt") ("resume.txt") ("deepseek-r1:7b")

/-- A concrete filesystem on which every path exists and reads succeed. -/
def fsA : FS :=
  FS.mk (fun _ => true) (fun _ => Except.ok ("Java backend, 3-5 yrs"))
    (fun _ => Except.ok [("p1"), ("p2")]) (fun _ => Except.ok [("pg1"), ("pg2")])

/-- A concrete filesystem on which no path exists. -/
def fsNone : FS :=
  FS.mk (fun _ => false) (fun _ => Except.error ("io"))
    (fun _ => Except.error ("docx")) (fun _ => Except.error ("pdf"))

/-- A concrete `json.loads` model accepting only the literal text `42`. -/
def parse42 : String → Option JVal :=
  fun s => if s = ("42") then some (JVal.num 42) else none

/-- A concrete well-formed JSON object text: `{"score": 90}`. -/
def c3txt : String := "\x7b\x22score\x22: 90\x7d"

/-- The JSON value denoted by `c3txt`. -/
def c3val : JVal := JVal.obj [(("score"), JVal.num 90)]

/-- A concrete `json.loads` model: parses `c3txt`, optionally padded by the
newlines left over from fence stripping, to `c3val`; rejects everything
else. -/
def c3parse : String → Option JVal :=
  fun s =>
    if s = c3txt then some c3val
    else if s = ("\n") ++ c3txt ++ ("\n") then some c3val
    else none

/-- A concrete JSON object text with an out-of-range score:
`{"score": 150}`. -/
def c6txt : String := "\x7b\x22score\x22: 150\x7d"

/-- The JSON value denoted by `c6txt`. -/
def c6val : JVal := JVal.obj [(("score"), JVal.num 150)]

/-- A concrete `json.loads` model accepting only `c6txt`. -/
def c6parse : String → Option JVal :=
  fun s => if s = c6txt then some c6val else none

/-- A concrete JSON object text that itself contains a `raw_response` key:
`{"score": 88, "raw_response": "sneaky"}`. -/
def c9txt : String := "\x7b\x22score\x22: 88, \x22raw_response\x22: \x22sneaky\x22\x7d"

/-- The JSON value denoted by `c9txt`. -/
def c9val : JVal :=
  JVal.obj [(("score"), JVal.num 88), (("raw_response"), JVal.str ("sneaky"))]

/-- A concrete `json.loads` model accepting only `c9txt`. -/
def c9parse : String → Option JVal :=
  fun s => if s = c9txt then some c9val else none

/-- Dropping whitespace from a list whose head is not whitespace changes
nothing. -/
theorem dropWhile_wsChar_eq_self (l : List Char)
    (h : ∀ c, l.head? = some c → wsChar c = false) :
    l.dropWhile wsChar = l := by
  cases l with
  | nil => rfl
  | cons a t => exact List.dropWhile_cons_of_neg (by simp [h a rfl])

/-- Python `strip()` is the identity on a string whose first and last
characters are not whitespace. -/
theorem pyStripL_eq_self (l : List Char)
    (h1 : ∀ c, l.head? = some c → wsChar c = false)
    (h2 : ∀ c, l.getLast? = some c → wsChar c = false) :
    pyStripL l = l := by
  unfold pyStripL
  rw [dropWhile_wsChar_eq_self l h1]
  rw [dropWhile_wsChar_eq_self l.reverse
    (by intro c hc; exact h2 c (by rwa [List.head?_reverse] at hc))]
  exact List.reverse_reverse l

/-- A list is a `isPrefixOf`-prefix of itself followed by anything. -/
theorem isPrefixOf_append_self (l r : List Char) : l.isPrefixOf (l ++ r) = true := by
  simp

/-- A list is a `isSuffixOf`-suffix of anything followed by itself. -/
theorem isSuffixOf_append_self (x l : List Char) : l.isSuffixOf (x ++ l) = true := by
  simp

/-- `isPrefixOf` fails when the heads differ. -/
theorem notPrefix_of_head_ne (a b : Char) (as bs : List Char) (h : (a == b) = false) :
    (a :: as).isPrefixOf (b :: bs) = false := by
  simp [List.isPrefixOf, h]

/-- Fence stripping on a response of the form `"```json\n" + payload + "\n```"`:
both fences are removed, leaving the newline-padded payload. -/
theorem stripFencesL_json_wrapped (q : List Char) :
    stripFencesL (fenceJsonL ++ (nl :: (q ++ (nl :: fenceL)))) = nl :: (q ++ [nl]) := by
  have hshape : fenceJsonL ++ (nl :: (q ++ (nl :: fenceL)))
      = (fenceJsonL ++ (nl :: (q ++ [nl, backquote, backquote]))) ++ [backquote] := by
    simp [fenceJsonL, fenceL]
  have h0 : pyStripL (fenceJsonL ++ (nl :: (q ++ (nl :: fenceL))))
      = fenceJsonL ++ (nl :: (q ++ (nl :: fenceL))) := by
    apply pyStripL_eq_self
    · intro c hc
      have hh : (fenceJsonL ++ (nl :: (q ++ (nl :: fenceL)))).head? = some backquote := by
        simp [fenceJsonL]
      rw [hh] at hc
      cases hc
      decide
    · intro c hc
      rw [hshape, List.getLast?_concat] at hc
      cases hc
      decide
  simp only [stripFencesL]
  rw [h0, isPrefixOf_append_self, if_pos rfl,
    List.drop_left' (by decide : fenceJsonL.length = 7)]
  rw [show fenceL = backquote :: [backquote, backquote] from rfl,
    notPrefix_of_head_ne backquote nl _ _ (by decide)]
  simp only [Bool.false_eq_true, if_false]
  have hsplit : nl :: (q ++ (nl :: (backquote :: [backquote, backquote])))
      = (nl :: (q ++ [nl])) ++ (backquote :: [backquote, backquote]) := by
    simp
  rw [hsplit, isSuffixOf_append_self, if_pos rfl]
  rw [show ((nl :: (q ++ [nl])) ++ (backquote :: [backquote, backquote])).length - 3
      = (nl :: (q ++ [nl])).length by simp]
  exact List.take_left _ _

/-- Fence stripping on a response of the form `"```\n" + payload + "\n```"`. -/
theorem stripFencesL_plain_wrapped (q : List Char) :
    stripFencesL (fenceL ++ (nl :: (q ++ (nl :: fenceL)))) = nl :: (q ++ [nl]) := by
  have hshape : fenceL ++ (nl :: (q ++ (nl :: fenceL)))
      = (fenceL ++ (nl :: (q ++ [nl, backquote, backquote]))) ++ [backquote] := by
    simp [fenceL]
  have h0 : pyStripL (fenceL ++ (nl :: (q ++ (nl :: fenceL))))
      = fenceL ++ (nl :: (q ++ (nl :: fenceL))) := by
    apply pyStripL_eq_self
    · intro c hc
      have hh : (fenceL ++ (nl :: (q ++ (nl :: fenceL)))).head? = some backquote := by
        simp [fenceL]
      rw [hh] at hc
      cases hc
      decide
    · intro c hc
      rw [hshape, List.getLast?_concat] at hc
      cases hc
      decide
  simp only [stripFencesL]
  rw [h0]
  rw [show fenceL ++ (nl :: (q ++ (nl :: fenceL)))
      = backquote :: (backquote :: (backquote :: (nl :: (q ++ (nl :: fenceL))))) by simp [fenceL]]
  rw [show fenceJsonL = backquote :: [backquote, backquote, 'j', 's', 'o', 'n'] from rfl]
  have hnotjson : (backquote :: [backquote, backquote, 'j', 's', 'o', 'n']).isPrefixOf
      (backquote :: (backquote :: (backquote :: (nl :: (q ++ (nl :: fenceL)))))) = false := by
    simp [List.isPrefixOf]
    intro h
    exact absurd h (by decide)
  rw [hnotjson]
  simp only [Bool.false_eq_true, if_false]
  rw [show backquote :: (backquote :: (backquote :: (nl :: (q ++ (nl :: fenceL)))))
      = fenceL ++ (nl :: (q ++ (nl :: fenceL))) by simp [fenceL]]
  rw [show fenceL = backquote :: [backquote, backquote] from rfl]
  rw [isPrefixOf_append_self, if_pos rfl]
  rw [List.drop_left' (by decide : (backquote :: [backquote, backquote]).length = 3)]
  have hsplit : nl :: (q ++ (nl :: (backquote :: [backquote, backquote])))
      = (nl :: (q ++ [nl])) ++ (backquote :: [backquote, backquote]) := by
    simp
  rw [hsplit, isSuffixOf_append_self, if_pos rfl]
  rw [show ((nl :: (q ++ [nl])) ++ (backquote :: [backquote, backquote])).length - 3
      = (nl :: (q ++ [nl])).length by simp]
  exact List.take_left _ _

/-- Fence stripping is the identity on a bare JSON-object payload: one that
begins with a left brace and ends with a right brace. -/
theorem stripFencesL_braced (m : List Char) :
    stripFencesL (lbrace :: (m ++ [rbrace])) = lbrace :: (m ++ [rbrace]) := by
  have h0 : pyStripL (lbrace :: (m ++ [rbrace])) = lbrace :: (m ++ [rbrace]) := by
    apply pyStripL_eq_self
    · intro c hc
      cases hc
      decide
    · intro c hc
      rw [show lbrace :: (m ++ [rbrace]) = (lbrace :: m) ++ [rbrace] by simp,
        List.getLast?_concat] at hc
      cases hc
      decide
  simp only [stripFencesL]
  rw [h0]
  rw [show fenceJsonL = backquote :: [backquote, backquote, 'j', 's', 'o', 'n'] from rfl,
    notPrefix_of_head_ne backquote lbrace _ _ (by decide)]
  simp only [Bool.false_eq_true, if_false]
  rw [show fenceL = backquote :: [backquote, backquote] from rfl,
    notPrefix_of_head_ne backquote lbrace _ _ (by decide)]
  simp only [Bool.false_eq_true, if_false]
  have hsuf : (backquote :: [backquote, backquote]).isSuffixOf (lbrace :: (m ++ [rbrace])) = false := by
    unfold List.isSuffixOf
    rw [show (lbrace :: (m ++ [rbrace])).reverse = rbrace :: (m.reverse ++ [lbrace]) by simp]
    exact notPrefix_of_head_ne backquote rbrace _ _ (by decide)
  rw [hsuf]
  simp only [Bool.false_eq_true, if_false]

/-- A nonempty list whose head is `a` and whose last element is `b ≠ a` has
the shape `a :: (m ++ [b])`. -/
theorem shape_of_head_getLast (l : List Char) (a b : Char) (hne : (a = b) → False)
    (h1 : l.head? = some a) (h2 : l.getLast? = some b) : ∃ m, l = a :: (m ++ [b]) := by
  cases l with
  | nil => exact absurd h1 (by simp)
  | cons c t =>
    have hc : c = a := by
      have hx := h1
      simp only [List.head?_cons, Option.some.injEq] at hx
      exact hx
    rcases List.eq_nil_or_concat t with rfl | ⟨m, d, rfl⟩
    · exfalso
      apply hne
      have hx := h2
      simp only [List.getLast?_singleton, Option.some.injEq] at hx
      rw [← hc, hx]
    · have hd : d = b := by
        have hx := h2
        rw [List.concat_eq_append,
          show c :: (m ++ [d]) = (c :: m) ++ [d] by simp,
          List.getLast?_concat] at hx
        exact Option.some.inj hx
      exact ⟨m, by rw [List.concat_eq_append, hd, hc]⟩

/-- The character list underlying `"```json\n" ++ txt ++ "\n```"`. -/
theorem wrapped_json_data (txt : String) :
    (("```json\n") ++ txt ++ ("\n```")).data = fenceJsonL ++ (nl :: (txt.data ++ (nl :: fenceL))) := by
  rw [String.data_append, String.data_append]
  rw [show ("```json\n").data = fenceJsonL ++ [nl] by decide]
  rw [show ("\n```").data = nl :: fenceL by decide]
  simp

/-- The character list underlying `"```\n" ++ txt ++ "\n```"`. -/
theorem wrapped_plain_data (txt : String) :
    (("```\n") ++ txt ++ ("\n```")).data = fenceL ++ (nl :: (txt.data ++ (nl :: fenceL))) := by
  rw [String.data_append, String.data_append]
  rw [show ("```\n").data = fenceL ++ [nl] by decide]
  rw [show ("\n```").data = nl :: fenceL by decide]
  simp

/-- The character list underlying `"\n" ++ txt ++ "\n"`. -/
theorem padded_data (txt : String) :
    (("\n") ++ txt ++ ("\n")).data = nl :: (txt.data ++ [nl]) := by
  rw [String.data_append, String.data_append]
  rw [show ("\n").data = [nl] by decide]
  simp

/-- Fence cleanup on a response wrapped as `"```json\n" + txt + "\n```"`
removes both fence markers and leaves the newline-padded payload. -/
theorem stripFences_json_wrapped (txt : String) :
    stripFences (("```json\n") ++ txt ++ ("\n```")) = ("\n") ++ txt ++ ("\n") := by
  unfold stripFences
  rw [wrapped_json_data, stripFencesL_json_wrapped, ← padded_data]

/-- Fence cleanup on a response wrapped as `"```\n" + txt + "\n```"`. -/
theorem stripFences_plain_wrapped (txt : String) :
    stripFences (("```\n") ++ txt ++ ("\n```")) = ("\n") ++ txt ++ ("\n") := by
  unfold stripFences
  rw [wrapped_plain_data, stripFencesL_plain_wrapped, ← padded_data]

/-- Fence cleanup is the identity on a bare JSON-object payload (first
character a left brace, last character a right brace). -/
theorem stripFences_obj (txt : String) (h1 : txt.data.head? = some lbrace)
    (h2 : txt.data.getLast? = some rbrace) : stripFences txt = txt := by
  obtain ⟨m, hm⟩ := shape_of_head_getLast txt.data lbrace rbrace (by decide) h1 h2
  unfold stripFences
  rw [hm, stripFencesL_braced, ← hm]

/-- When the generate call returns a response text, `call_local_model` is the
fence-strip-then-parse normalization of that text. -/
theorem call_local_model_returns (parse : String → Option JVal)
    (ev : ResumeEvaluator) (prompt txt : String)
    (generate : String → String → GenOutcome)
    (hgen : generate ev.model_name prompt = GenOutcome.returns txt) :
    call_local_model parse (OllamaEnv.available generate) ev prompt
      = (match parse (stripFences txt) with
         | some result => result
         | none => parse_failure_result txt) := by
  unfold call_local_model
  dsimp only
  rw [hgen]

/-- C1: for every prompt, if the ollama library is missing or the model
invocation raises any error, the evaluation returns exactly the default
evaluation, whose top-level score is 80. -/
theorem C1_model_unreachable_default (parse : String → Option JVal)
    (ev : ResumeEvaluator) (prompt msg : String)
    (generate : String → String → GenOutcome)
    (hgen : generate ev.model_name prompt = GenOutcome.raises msg) :
    call_local_model parse OllamaEnv.unavailable ev prompt = get_default_evaluation
    ∧ call_local_model parse (OllamaEnv.available generate) ev prompt = get_default_evaluation
    ∧ jget get_default_evaluation ("score") = some (JVal.num 80) := by
  refine ⟨rfl, ?_, rfl⟩
  unfold call_local_model
  dsimp only
  rw [hgen]

/-- Witness for C1 at a concrete failing generate call. -/
theorem C1_model_unreachable_default_witness :
    call_local_model (fun _ => none) OllamaEnv.unavailable evA ("p") = get_default_evaluation
    ∧ call_local_model (fun _ => none)
        (OllamaEnv.available (fun _ _ => GenOutcome.raises ("connection error"))) evA ("p")
        = get_default_evaluation
    ∧ jget get_default_evaluation ("score") = some (JVal.num 80) :=
  C1_model_unreachable_default (fun _ => none) evA ("p") ("connection error")
    (fun _ _ => GenOutcome.raises ("connection error")) rfl

/-- C2: when the response text does not parse as JSON after fence stripping,
normalization returns the diagnostic structure, whose top-level score is 75
and whose raw_response field is the original, unmodified response text. -/
theorem C2_unparseable_diagnostic (parse : String → Option JVal)
    (ev : ResumeEvaluator) (prompt txt : String)
    (generate : String → String → GenOutcome)
    (hgen : generate ev.model_name prompt = GenOutcome.returns txt)
    (hparse : parse (stripFences txt) = none) :
    call_local_model parse (OllamaEnv.available generate) ev prompt = parse_failure_result txt
    ∧ jget (parse_failure_result txt) ("score") = some (JVal.num 75)
    ∧ jget (parse_failure_result txt) ("raw_response") = some (JVal.str txt) := by
  refine ⟨?_, rfl, rfl⟩
  rw [call_local_model_returns parse ev prompt txt generate hgen, hparse]

/-- Witness for C2 at the literal response `not json`. -/
theorem C2_unparseable_diagnostic_witness :
    call_local_model (fun _ => none)
      (OllamaEnv.available (fun _ _ => GenOutcome.returns ("not json"))) evA ("p")
      = parse_failure_result ("not json")
    ∧ jget (parse_failure_result ("not json")) ("score") = some (JVal.num 75)
    ∧ jget (parse_failure_result ("not json")) ("raw_response") = some (JVal.str ("not json")) :=
  C2_unparseable_diagnostic (fun _ => none) evA ("p") ("not json")
    (fun _ _ => GenOutcome.returns ("not json")) rfl rfl

/-- C4: extraction on a nonexistent path raises `FileNotFoundError` with the
fixed message, regardless of the path's extension, rather than converting the
failure to an error-text payload. -/
theorem C4_missing_file_notfound (fs : FS) (p : String)
    (h : fs.pathExists p = false) :
    read_file_content fs p = ReadOutcome.fileNotFound (("文件不存在: ") ++ p) := by
  unfold read_file_content
  rw [h, if_pos rfl]

/-- Witness for C4 on a filesystem without files, at a `.pdf` path. -/
theorem C4_missing_file_notfound_witness :
    read_file_content fsNone ("missing.pdf")
      = ReadOutcome.fileNotFound (("文件不存在: ") ++ ("missing.pdf")) :=
  C4_missing_file_notfound fsNone ("missing.pdf") rfl

/-- C7: the intended graceful degradation for an absent parsing library
cannot happen, because the module only loads when both `PyPDF2` and `docx`
are importable; with either library absent the `ImportError` is raised
at import time, so `read_file_content` (and its dead `except ImportError`
handlers) can never run. -/
theorem C7_library_absent_import_crash :
    module_imports_ok true false = false
    ∧ module_imports_ok false true = false
    ∧ module_imports_ok true true = true := by
  decide

/-- C10: whatever JSON value the cleaned response parses to — object or not —
is returned unchanged, with no schema check. -/
theorem C10_parse_passthrough (parse : String → Option JVal)
    (ev : ResumeEvaluator) (prompt txt : String) (v : JVal)
    (generate : String → String → GenOutcome)
    (hgen : generate ev.model_name prompt = GenOutcome.returns txt)
    (hparse : parse (stripFences txt) = some v) :
    call_local_model parse (OllamaEnv.available generate) ev prompt = v := by
  rw [call_local_model_returns parse ev prompt txt generate hgen, hparse]

/-- Witness for C10 at the bare-number response `42`. -/
theorem C10_parse_passthrough_witness :
    call_local_model parse42
      (OllamaEnv.available (fun _ _ => GenOutcome.returns ("42"))) evA ("p") = JVal.num 42 :=
  C10_parse_passthrough parse42 evA ("p") ("42") (JVal.num 42)
    (fun _ _ => GenOutcome.returns ("42")) rfl rfl

/-- On an existing path, `read_file_content` always returns a content string
(every branch of the dispatch returns, none raises). -/
theorem read_file_content_content_of_exists (fs : FS) (p : String)
    (h : fs.pathExists p = true) :
    ∃ s, read_file_content fs p = ReadOutcome.content s := by
  unfold read_file_content
  rw [h]
  rw [if_neg (by decide : ¬ (true = false))]
  dsimp only
  repeat' split
  all_goals exact ⟨_, rfl⟩

/-- C5: with both input files existing, a full evaluation run returns a
structured result for every model behaviour and every readable-or-broken file
content; extraction, invocation and parsing failures are all absorbed, and
`FileNotFoundError` is the only outcome that can abort a run. -/
theorem C5_evaluate_total (fs : FS) (parse : String → Option JVal)
    (env : OllamaEnv) (ev : ResumeEvaluator)
    (h1 : fs.pathExists ev.jd_path = true)
    (h2 : fs.pathExists ev.resume_path = true) :
    ∃ v, evaluate fs parse env ev = RunResult.ok v := by
  obtain ⟨jd, hjd⟩ := read_file_content_content_of_exists fs ev.jd_path h1
  obtain ⟨rs, hrs⟩ := read_file_content_content_of_exists fs ev.resume_path h2
  refine ⟨call_local_model parse env ev (generate_prompt jd rs), ?_⟩
  unfold evaluate
  rw [hjd, hrs]

/-- Witness for C5 on a concrete filesystem with an unavailable model. -/
theorem C5_evaluate_total_witness :
    ∃ v, evaluate fsA (fun _ => none) OllamaEnv.unavailable evA = RunResult.ok v :=
  C5_evaluate_total fsA (fun _ => none) OllamaEnv.unavailable evA rfl rfl

/-- C8: extraction on an existing, readable file returns its visible content:
`.txt` and unrecognized extensions verbatim, `.docx` as the paragraph texts
joined by newlines in document order, `.pdf` as the page texts concatenated in
page order (so the text is non-empty whenever the source content is). -/
theorem C8_extract_supported (fs : FS) (p : String)
    (hex : fs.pathExists p = true) :
    (∀ s, splitextExt (pyLower p) = (".txt") → fs.readTextUtf8 p = Except.ok s →
      read_file_content fs p = ReadOutcome.content s)
    ∧ (∀ ps, splitextExt (pyLower p) = (".docx") → fs.docxParagraphs p = Except.ok ps →
      read_file_content fs p = ReadOutcome.content (String.intercalate ("\n") ps))
    ∧ (∀ pages, splitextExt (pyLower p) = (".pdf") → fs.pdfPages p = Except.ok pages →
      read_file_content fs p = ReadOutcome.content (String.join pages))
    ∧ (∀ s, splitextExt (pyLower p) ≠ (".txt") → splitextExt (pyLower p) ≠ (".docx") →
      splitextExt (pyLower p) ≠ (".pdf") → fs.readTextUtf8 p = Except.ok s →
      read_file_content fs p = ReadOutcome.content s) := by
  refine ⟨?_, ?_, ?_, ?_⟩
  · intro s hext hread
    unfold read_file_content
    rw [hex, if_neg (by decide : ¬ (true = false))]
    dsimp only
    rw [hext, if_pos rfl, hread]
  · intro ps hext hread
    unfold read_file_content
    rw [hex, if_neg (by decide : ¬ (true = false))]
    dsimp only
    rw [hext, if_neg (by decide), if_pos (by decide), hread]
  · intro pages hext hread
    unfold read_file_content
    rw [hex, if_neg (by decide : ¬ (true = false))]
    dsimp only
    rw [hext, if_neg (by decide), if_neg (by decide), if_pos rfl, hread]
  · intro s hne1 hne2 hne3 hread
    unfold read_file_content
    rw [hex, if_neg (by decide : ¬ (true = false))]
    dsimp only
    rw [if_neg hne1, if_neg (by simp [hne2]), if_neg hne3, hread]

/-- Witness for C8 on a concrete filesystem, covering all four dispatch
branches. -/
theorem C8_extract_supported_witness :
    read_file_content fsA ("jd.txt") = ReadOutcome.content ("Java backend, 3-5 yrs")
    ∧ read_file_content fsA ("cv.docx")
        = ReadOutcome.content (String.intercalate ("\n") [("p1"), ("p2")])
    ∧ read_file_content fsA ("cv.pdf") = ReadOutcome.content (String.join [("pg1"), ("pg2")])
    ∧ read_file_content fsA ("notes.md") = ReadOutcome.content ("Java backend, 3-5 yrs") :=
  ⟨(C8_extract_supported fsA ("jd.txt") rfl).1 ("Java backend, 3-5 yrs") (by decide) rfl,
   (C8_extract_supported fsA ("cv.docx") rfl).2.1 [("p1"), ("p2")] (by decide) rfl,
   (C8_extract_supported fsA ("cv.pdf") rfl).2.2.1 [("pg1"), ("pg2")] (by decide) rfl,
   (C8_extract_supported fsA ("notes.md") rfl).2.2.2 ("Java backend, 3-5 yrs")
     (by decide) (by decide) (by decide) rfl⟩

/-- C3: a valid JSON-object payload is recovered exactly by normalization,
whether bare or wrapped in a Markdown fence (` ```json ` or ` ``` `), with no
`raw_response` key added; fence stripping is lossless on the bare payload and
hence idempotent there. -/
theorem C3_normalize_roundtrip (parse : String → Option JVal)
    (ev : ResumeEvaluator) (prompt txt : String) (v : JVal)
    (h1 : txt.data.head? = some lbrace)
    (h2 : txt.data.getLast? = some rbrace)
    (hp : parse txt = some v)
    (hw : parse (("\n") ++ txt ++ ("\n")) = some v)
    (hnr : jget v ("raw_response") = none) :
    call_local_model parse (OllamaEnv.available (fun _ _ => GenOutcome.returns txt)) ev prompt = v
    ∧ call_local_model parse
        (OllamaEnv.available (fun _ _ => GenOutcome.returns (("```json\n") ++ txt ++ ("\n```"))))
        ev prompt = v
    ∧ call_local_model parse
        (OllamaEnv.available (fun _ _ => GenOutcome.returns (("```\n") ++ txt ++ ("\n```"))))
        ev prompt = v
    ∧ stripFences txt = txt
    ∧ stripFences (stripFences txt) = stripFences txt
    ∧ jget (call_local_model parse
        (OllamaEnv.available (fun _ _ => GenOutcome.returns txt)) ev prompt) ("raw_response")
        = none := by
  have hobj := stripFences_obj txt h1 h2
  have e1 : call_local_model parse
      (OllamaEnv.available (fun _ _ => GenOutcome.returns txt)) ev prompt = v := by
    rw [call_local_model_returns parse ev prompt txt _ rfl, hobj, hp]
  have e2 : call_local_model parse
      (OllamaEnv.available (fun _ _ => GenOutcome.returns (("```json\n") ++ txt ++ ("\n```"))))
      ev prompt = v := by
    rw [call_local_model_returns parse ev prompt (("```json\n") ++ txt ++ ("\n```")) _ rfl,
      stripFences_json_wrapped, hw]
  have e3 : call_local_model parse
      (OllamaEnv.available (fun _ _ => GenOutcome.returns (("```\n") ++ txt ++ ("\n```"))))
      ev prompt = v := by
    rw [call_local_model_returns parse ev prompt (("```\n") ++ txt ++ ("\n```")) _ rfl,
      stripFences_plain_wrapped, hw]
  refine ⟨e1, e2, e3, hobj, ?_, ?_⟩
  · rw [hobj]
    exact hobj
  · rw [e1]
    exact hnr

/-- Witness for C3 at the concrete payload `c3txt`. -/
theorem C3_normalize_roundtrip_witness :
    call_local_model c3parse
      (OllamaEnv.available (fun _ _ => GenOutcome.returns c3txt)) evA ("p") = c3val
    ∧ call_local_model c3parse
        (OllamaEnv.available (fun _ _ => GenOutcome.returns (("```json\n") ++ c3txt ++ ("\n```"))))
        evA ("p") = c3val
    ∧ call_local_model c3parse
        (OllamaEnv.available (fun _ _ => GenOutcome.returns (("```\n") ++ c3txt ++ ("\n```"))))
        evA ("p") = c3val
    ∧ stripFences c3txt = c3txt
    ∧ stripFences (stripFences c3txt) = stripFences c3txt
    ∧ jget (call_local_model c3parse
        (OllamaEnv.available (fun _ _ => GenOutcome.returns c3txt)) evA ("p")) ("raw_response")
        = none :=
  C3_normalize_roundtrip c3parse evA ("p") c3txt c3val rfl rfl rfl rfl rfl

/-- C6 counterexample: a model response that parses to `{"score": 150}` is
returned as the evaluation result unchanged, violating the claimed 0..100
score invariant on the parse-success path. -/
theorem C6_counterexample_score_out_of_range :
    c6parse (stripFences c6txt) = some c6val
    ∧ call_local_model c6parse
        (OllamaEnv.available (fun _ _ => GenOutcome.returns c6txt)) evA ("p") = c6val
    ∧ evalInvariant c6val = false :=
  ⟨rfl, rfl, rfl⟩

/-- C6 amended: the invariant does hold on the diagnostic-fallback and
default paths; on the parse-success path the parsed JSON is returned without
validation, so there it is not guaranteed. -/
theorem C6_invariant_amended :
    evalInvariant get_default_evaluation = true
    ∧ (∀ raw, evalInvariant (parse_failure_result raw) = true) :=
  ⟨rfl, fun _ => rfl⟩

/-- C9 counterexample: a successfully parsed result can contain
`raw_response` when the model's own JSON includes that key, so presence of
`raw_response` does not imply the diagnostic fallback ran. -/
theorem C9_counterexample_rawresponse_on_success :
    c9parse (stripFences c9txt) = some c9val
    ∧ call_local_model c9parse
        (OllamaEnv.available (fun _ _ => GenOutcome.returns c9txt)) evA ("p") = c9val
    ∧ jget c9val ("raw_response") = some (JVal.str ("sneaky")) :=
  ⟨rfl, rfl, rfl⟩

/-- C9 amended: `raw_response` is absent from the default evaluation, the
diagnostic structure always binds it to the original response text, and a
successful parse passes the model's JSON through unchanged — so on that path
`raw_response` is present exactly when the model's own JSON contains it. -/
theorem C9_rawresponse_amended :
    jget get_default_evaluation ("raw_response") = none
    ∧ (∀ raw, jget (parse_failure_result raw) ("raw_response") = some (JVal.str raw))
    ∧ (∀ (parse : String → Option JVal) (ev : ResumeEvaluator) (prompt txt : String)
        (v : JVal) (generate : String → String → GenOutcome),
        generate ev.model_name prompt = GenOutcome.returns txt →
        parse (stripFences txt) = some v →
        jget (call_local_model parse (OllamaEnv.available generate) ev prompt) ("raw_response")
          = jget v ("raw_response")) := by
  refine ⟨rfl, fun raw => rfl, ?_⟩
  intro parse ev prompt txt v generate hgen hparse
  rw [call_local_model_returns parse ev prompt txt generate hgen, hparse]

/-- Witness for the pass-through part of the amended C9, at the concrete
parsed value `c9val`. -/
theorem C9_rawresponse_amended_witness :
    jget (call_local_model c9parse
      (OllamaEnv.available (fun _ _ => GenOutcome.returns c9txt)) evA ("p")) ("raw_response")
      = jget c9val ("raw_response") :=
  C9_rawresponse_amended.2.2 c9parse evA ("p") c9txt c9val
    (fun _ _ => GenOutcome.returns c9txt) rfl rfl
